import Mathlib

/-!
Shallow embedding of the Secure Agent Builder wizard frontend found under
src/frontend/src: the payload shapes from types/index.ts, the wizard
controller state and handlers from pages/AgentBuilder.tsx, the step
components from components/steps, and the QA harness local to
ReviewStep.tsx.  Each asynchronous handler is modelled as a function from
the current wizard state and the outcome of its single REST call to the
list of state-setter events it performs, in order; the post-handler state
is the left fold of those events over the state.  JavaScript string trim
and truthiness are modelled explicitly.
-/

namespace AgentBuilder

/-- Agent record from types/index.ts. -/
structure Agent where
  id : Nat
  name : String
  description : String
  purpose : String
  model : String
  created_at : String
  updated_at : String
deriving DecidableEq
/-- AgentCreate payload from types/index.ts, held as the metadata form. -/
structure AgentCreate where
  name : String
  description : String
  purpose : String
  model : String
deriving DecidableEq
/-- Tool record from types/index.ts; the two schema fields are opaque
strings to the wizard. -/
structure Tool where
  id : Nat
  name : String
  description : String
  input_schema : String
  output_schema : String
deriving DecidableEq
/-- Policy record from types/index.ts.  frequency_limit is a nullable
number. -/
structure Policy where
  id : Nat
  agent_id : Nat
  frequency_limit : Option Int
  require_approval_for_all_tool_calls : Bool
deriving DecidableEq
/-- PolicyCreate payload from types/index.ts, held as the policy form. -/
structure PolicyCreate where
  frequency_limit : Option Int
  require_approval_for_all_tool_calls : Bool
deriving DecidableEq
/-- Tool entry of a composed definition; the schema objects are opaque to
the wizard and kept as strings. -/
structure AgentDefinitionTool where
  id : Nat
  name : String
  description : String
  input_schema : String
  output_schema : String
deriving DecidableEq
/-- Policy part of a composed definition, from types/index.ts. -/
structure AgentDefinitionPolicy where
  allowed_tool_ids : List Nat
  frequency_limit : Option Int
  require_approval_for_all_tool_calls : Bool
deriving DecidableEq
/-- Composed read-only agent definition from types/index.ts. -/
structure AgentDefinition where
  agent_id : Nat
  name : String
  description : String
  purpose : String
  model : String
  tools : List AgentDefinitionTool
  policy : AgentDefinitionPolicy
deriving DecidableEq
/-- QA response from types/index.ts; the answer field is kept optional
because ReviewStep guards it with a nullish coalescing operator. -/
structure AgentQAResponse where
  question : String
  answer : Option String
  session_id : Option String
deriving DecidableEq
/-- Shape of a failed axios call as the handlers read it: the optional
backend payload field err.response.data.detail, and the optional client
side err.message used only by the QA harness. -/
structure ApiError where
  response_detail : Option String
  message : Option String
deriving DecidableEq
/-- The useState fields of AgentBuilderPage (pages/AgentBuilder.tsx). -/
structure WizardState where
  activeStep : String
  agent : Option Agent
  agentDefinition : Option AgentDefinition
  availableTools : List Tool
  selectedToolIds : List Nat
  policy : Option Policy
  error : String
  loading : Bool
  metadataForm : AgentCreate
  policyForm : PolicyCreate
deriving DecidableEq
/-- The models array of AgentBuilder.tsx. -/
def models : List String := ["gpt-4.1-mini", "gpt-4.1", "gpt-4.1-extended"]
/-- One entry of the steps array of AgentBuilder.tsx. -/
structure Step where
  key : String
  label : String
deriving DecidableEq
/-- The steps array of AgentBuilder.tsx: the fixed linear order of the
wizard. -/
def steps : List Step :=
  [⟨"metadata", "Metadata"⟩, ⟨"tools", "Tools"⟩,
   ⟨"policies", "Policies"⟩, ⟨"review", "Review & Export"⟩]
/-- The step keys in wizard order. -/
def stepKeys : List String := steps.map Step.key
/-- The step key immediately after the given key in the steps array. -/
def nextStepKey (k : String) : Option String :=
  match stepKeys.indexOf? k with
  | some i => stepKeys.get? (i + 1)
  | none => none
/-- The step key immediately before the given key in the steps array. -/
def prevStepKey (k : String) : Option String :=
  match stepKeys.indexOf? k with
  | some (i + 1) => stepKeys.get? i
  | _ => none
/-- Whitespace characters removed by the JavaScript string trim method
(restricted to the ASCII whitespace the forms can contain). -/
def jsWhitespace (c : Char) : Bool :=
  c == ' ' || c == '\t' || c == '\n' || c == '\r'
/-- Model of the JavaScript string trim method: drop whitespace from both
ends. -/
def jsTrim (s : String) : String :=
  String.mk (((s.data.dropWhile jsWhitespace).reverse.dropWhile jsWhitespace).reverse)
/-- JavaScript logical-or on an optional string against a fallback: an
absent or empty (falsy) string yields the fallback. -/
def jsOrString (a : Option String) (b : String) : String :=
  match a with
  | some s => if s == "" then b else s
  | none => b
/-- JavaScript double-negation truthiness of a nullable number: null and
zero are falsy. -/
def truthyNumber : Option Nat → Bool
  | none => false
  | some n => n != 0
/-- The inline error banner of every step component renders exactly when
the error string is truthy, that is non-empty. -/
def errorBannerShown (msg : String) : Bool := !(msg == "")
/-- The isMetadataValid memo of AgentBuilder.tsx. -/
def isMetadataValid (f : AgentCreate) : Bool :=
  decide (0 < (jsTrim f.name).length) &&
  decide (10 ≤ (jsTrim f.description).length) &&
  decide (5 ≤ (jsTrim f.purpose).length) &&
  decide (0 < (jsTrim f.model).length)
/-- Disabled condition of the Next button in MetadataStep.tsx. -/
def metadataNextDisabled (isValid loading : Bool) : Bool := !isValid || loading
/-- Disabled condition of the submit button in ToolsStep.tsx. -/
def toolsSubmitDisabled (loading : Bool) : Bool := loading
/-- Disabled condition of the Back button in ToolsStep.tsx. -/
def toolsBackDisabled (loading : Bool) : Bool := loading
/-- Disabled condition of the submit button in PolicyStep.tsx. -/
def policySubmitDisabled (loading : Bool) : Bool := loading
/-- Disabled condition of the Back button in PolicyStep.tsx. -/
def policyBackDisabled (loading : Bool) : Bool := loading
/-- Disabled condition of the Back button in ReviewStep.tsx. -/
def reviewBackDisabled (loading : Bool) : Bool := loading
/-- Checkbox select branch of ToolsStep.tsx: append the tool id. -/
def selectTool (selectedToolIds : List Nat) (toolId : Nat) : List Nat :=
  selectedToolIds ++ [toolId]
/-- Checkbox deselect branch of ToolsStep.tsx: filter the tool id out. -/
def deselectTool (selectedToolIds : List Nat) (toolId : Nat) : List Nat :=
  selectedToolIds.filter (fun i => i != toolId)
/-- Checked condition of a tool row in ToolsStep.tsx. -/
def isToolChecked (selectedToolIds : List Nat) (toolId : Nat) : Bool :=
  selectedToolIds.contains toolId
/-- Error message of the missing-agent guard in handleSaveTools and
handleSavePolicy. -/
def agentNotCreatedMsg : String :=
  "Agent not created. Please go back to Metadata step and create the agent first."
/-- Warning of the approval-with-no-tools guard in handleSavePolicy. -/
def unusableAgentMsg : String :=
  "Agent has no tools and all tool calls require approval - this agent will be unusable."
/-- Error message of the frequency-limit guard in handleSavePolicy. -/
def freqLimitMsg : String :=
  "Frequency limit must be positive when provided."
/-- The inline frequency guard of handleSavePolicy: frequency_limit is not
null and is at most zero. -/
def freqGuardFires : Option Int → Bool
  | none => false
  | some n => decide (n ≤ 0)
/-- One state-setter call or REST request performed by a handler. -/
inductive Event where
  | setActiveStep (k : String)
  | setAgent (a : Option Agent)
  | setAgentDefinition (d : Option AgentDefinition)
  | setAvailableTools (ts : List Tool)
  | setSelectedToolIds (ids : List Nat)
  | setPolicyState (p : Option Policy)
  | setError (msg : String)
  | setLoading (b : Bool)
  | apiRequest (endpoint : String)
deriving DecidableEq
/-- Effect of one setter event on the wizard state; a request has no
direct state effect. -/
def applyEvent (s : WizardState) : Event → WizardState
  | Event.setActiveStep k => { s with activeStep := k }
  | Event.setAgent a => { s with agent := a }
  | Event.setAgentDefinition d => { s with agentDefinition := d }
  | Event.setAvailableTools ts => { s with availableTools := ts }
  | Event.setSelectedToolIds ids => { s with selectedToolIds := ids }
  | Event.setPolicyState p => { s with policy := p }
  | Event.setError msg => { s with error := msg }
  | Event.setLoading b => { s with loading := b }
  | Event.apiRequest _ => s
/-- Run a handler event list over a state. -/
def runEvents (s : WizardState) (es : List Event) : WizardState :=
  es.foldl applyEvent s
/-- True when the event is a REST request. -/
def isRequestEvent : Event → Bool
  | Event.apiRequest _ => true
  | _ => false
/-- Number of REST requests an event list performs. -/
def requestCount (es : List Event) : Nat :=
  (es.filter isRequestEvent).length
/-- Starting from the given value of the loading flag, every REST request
in the list happens while the loading flag is set. -/
def requestsGuarded : Bool → List Event → Bool
  | _, [] => true
  | _, Event.setLoading b :: rest => requestsGuarded b rest
  | l, Event.apiRequest _ :: rest => l && requestsGuarded l rest
  | l, _ :: rest => requestsGuarded l rest
/-- Event list of fetchTools in AgentBuilder.tsx, given the REST outcome:
clear the error, request the tool list, then either store it or set a
fixed failure message.  The loading flag is never touched. -/
def fetchToolsEvents (r : Except ApiError (List Tool)) : List Event :=
  [Event.setError "", Event.apiRequest "getTools"] ++
    match r with
    | Except.ok tools => [Event.setAvailableTools tools]
    | Except.error _ => [Event.setError "Failed to load tools. Please try again."]
/-- Event list of fetchSelectedTools in AgentBuilder.tsx.  The loading
flag is never touched. -/
def fetchSelectedToolsEvents (r : Except ApiError (List Tool)) : List Event :=
  [Event.setError "", Event.apiRequest "getAgentTools"] ++
    match r with
    | Except.ok tools => [Event.setSelectedToolIds (tools.map (fun t => t.id))]
    | Except.error _ => [Event.setError "Failed to load selected tools."]
/-- Event list of fetchDefinition in AgentBuilder.tsx: loading is set
around the request and cleared in the finally block. -/
def fetchDefinitionEvents (r : Except ApiError AgentDefinition) : List Event :=
  [Event.setError "", Event.setLoading true, Event.apiRequest "getDefinition"] ++
    (match r with
     | Except.ok d => [Event.setAgentDefinition (some d)]
     | Except.error _ =>
        [Event.setError "Unable to fetch agent definition. Ensure policy is configured."]) ++
    [Event.setLoading false]
/-- Event list of handleCreateAgent in AgentBuilder.tsx. -/
def handleCreateAgentEvents (r : Except ApiError Agent) : List Event :=
  [Event.setError "", Event.setLoading true, Event.apiRequest "createAgent"] ++
    (match r with
     | Except.ok created => [Event.setAgent (some created), Event.setActiveStep "tools"]
     | Except.error e =>
        [Event.setError (e.response_detail.getD "Unable to create agent. Check inputs.")]) ++
    [Event.setLoading false]
/-- Event list of handleSaveTools in AgentBuilder.tsx: a missing agent
short-circuits with an error before any request. -/
def handleSaveToolsEvents (s : WizardState) (r : Except ApiError (List Tool)) : List Event :=
  match s.agent with
  | none => [Event.setError agentNotCreatedMsg]
  | some _ =>
    [Event.setError "", Event.setLoading true, Event.apiRequest "setAgentTools"] ++
      (match r with
       | Except.ok tools =>
          [Event.setSelectedToolIds (tools.map (fun t => t.id)),
           Event.setActiveStep "policies"]
       | Except.error e =>
          [Event.setError (e.response_detail.getD "Failed to save tools.")]) ++
      [Event.setLoading false]
/-- Event list of handleSavePolicy in AgentBuilder.tsx: the missing-agent
guard, then the approval-with-no-tools guard, then the frequency guard,
and only then the request. -/
def handleSavePolicyEvents (s : WizardState) (r : Except ApiError Policy) : List Event :=
  match s.agent with
  | none => [Event.setError agentNotCreatedMsg]
  | some _ =>
    if s.policyForm.require_approval_for_all_tool_calls && s.selectedToolIds.length == 0 then
      [Event.setError unusableAgentMsg]
    else if freqGuardFires s.policyForm.frequency_limit then
      [Event.setError freqLimitMsg]
    else
      [Event.setError "", Event.setLoading true, Event.apiRequest "setPolicy"] ++
        (match r with
         | Except.ok saved =>
            [Event.setPolicyState (some saved), Event.setActiveStep "review"]
         | Except.error e =>
            [Event.setError (e.response_detail.getD "Failed to save policy.")]) ++
        [Event.setLoading false]
/-- State after fetchTools completes with the given REST outcome. -/
def fetchTools (s : WizardState) (r : Except ApiError (List Tool)) : WizardState :=
  runEvents s (fetchToolsEvents r)
/-- State after fetchSelectedTools completes with the given REST outcome. -/
def fetchSelectedTools (s : WizardState) (r : Except ApiError (List Tool)) : WizardState :=
  runEvents s (fetchSelectedToolsEvents r)
/-- State after fetchDefinition completes with the given REST outcome. -/
def fetchDefinition (s : WizardState) (r : Except ApiError AgentDefinition) : WizardState :=
  runEvents s (fetchDefinitionEvents r)
/-- State after handleCreateAgent completes with the given REST outcome. -/
def handleCreateAgent (s : WizardState) (r : Except ApiError Agent) : WizardState :=
  runEvents s (handleCreateAgentEvents r)
/-- State after handleSaveTools completes with the given REST outcome. -/
def handleSaveTools (s : WizardState) (r : Except ApiError (List Tool)) : WizardState :=
  runEvents s (handleSaveToolsEvents s r)
/-- State after handleSavePolicy completes with the given REST outcome. -/
def handleSavePolicy (s : WizardState) (r : Except ApiError Policy) : WizardState :=
  runEvents s (handleSavePolicyEvents s r)
/-- Event list of the ToolsStep Back button: a single step change. -/
def toolsBackEvents : List Event := [Event.setActiveStep "metadata"]
/-- Event list of the PolicyStep Back button: a single step change. -/
def policiesBackEvents : List Event := [Event.setActiveStep "tools"]
/-- Event list of the ReviewStep Back button: a single step change. -/
def reviewBackEvents : List Event := [Event.setActiveStep "policies"]
/-- State after pressing Back on the tools step. -/
def onBackFromTools (s : WizardState) : WizardState := runEvents s toolsBackEvents
/-- State after pressing Back on the policies step. -/
def onBackFromPolicies (s : WizardState) : WizardState := runEvents s policiesBackEvents
/-- State after pressing Back on the review step. -/
def onBackFromReview (s : WizardState) : WizardState := runEvents s reviewBackEvents
/-- Local QA state of ReviewStep.tsx. -/
structure QAState where
  question : String
  answer : Option String
  qaError : Option String
  qaLoading : Bool
deriving DecidableEq
/-- The derived agentId of ReviewStep.tsx: the agent_id of the loaded
definition, or null. -/
def agentIdOf (d : Option AgentDefinition) : Option Nat :=
  match d with
  | none => none
  | some defn => some defn.agent_id
/-- The canAsk memo of ReviewStep.tsx. -/
def canAsk (agentId : Option Nat) (question : String) (qaLoading : Bool) : Bool :=
  truthyNumber agentId && decide (0 < (jsTrim question).length) && !qaLoading
/-- Disabled condition of the Ask button in ReviewStep.tsx. -/
def askButtonDisabled (c : Bool) : Bool := !c
/-- The JavaScript-or chain of the onAsk catch branch: backend detail,
else client message, else a fixed fallback. -/
def qaFailureMsg (e : ApiError) : String :=
  jsOrString e.response_detail (jsOrString e.message "Failed to get an answer")
/-- The onAsk callback of ReviewStep.tsx: a falsy agent id returns at once
with nothing sent; otherwise the QA state is reset, the question posted,
and the answer or the error chain stored.  The boolean of the pair records
whether a request was sent. -/
def onAsk (agentId : Option Nat) (qa : QAState) (r : Except ApiError AgentQAResponse) :
    QAState × Bool :=
  if !(truthyNumber agentId) then (qa, false)
  else
    let qa1 := { qa with qaError := none, answer := none, qaLoading := true }
    let qa2 :=
      match r with
      | Except.ok res => { qa1 with answer := some (res.answer.getD "") }
      | Except.error e => { qa1 with qaError := some (qaFailureMsg e) }
    ({ qa2 with qaLoading := false }, true)
/-- Initial wizard state from the useState initialisers of
AgentBuilder.tsx. -/
def initialState : WizardState :=
  { activeStep := "metadata"
    agent := none
    agentDefinition := none
    availableTools := []
    selectedToolIds := []
    policy := none
    error := ""
    loading := false
    metadataForm := { name := "", description := "", purpose := "", model := models.getD 0 "" }
    policyForm := { frequency_limit := none, require_approval_for_all_tool_calls := false } }
/-- Wizard states the page can actually be in: the initial state closed
under the handlers, the Back buttons and the form setters, each fired only
from the step whose component renders it. -/
inductive Reachable : WizardState → Prop where
  | init : Reachable initialState
  | createAgent (s : WizardState) (r : Except ApiError Agent)
      (hs : Reachable s) (hstep : s.activeStep = "metadata") :
      Reachable (handleCreateAgent s r)
  | saveTools (s : WizardState) (r : Except ApiError (List Tool))
      (hs : Reachable s) (hstep : s.activeStep = "tools") :
      Reachable (handleSaveTools s r)
  | savePolicy (s : WizardState) (r : Except ApiError Policy)
      (hs : Reachable s) (hstep : s.activeStep = "policies") :
      Reachable (handleSavePolicy s r)
  | loadTools (s : WizardState) (r : Except ApiError (List Tool))
      (hs : Reachable s) : Reachable (fetchTools s r)
  | loadSelectedTools (s : WizardState) (r : Except ApiError (List Tool))
      (hs : Reachable s) : Reachable (fetchSelectedTools s r)
  | loadDefinition (s : WizardState) (r : Except ApiError AgentDefinition)
      (hs : Reachable s) : Reachable (fetchDefinition s r)
  | backFromTools (s : WizardState) (hs : Reachable s)
      (hstep : s.activeStep = "tools") : Reachable (onBackFromTools s)
  | backFromPolicies (s : WizardState) (hs : Reachable s)
      (hstep : s.activeStep = "policies") : Reachable (onBackFromPolicies s)
  | backFromReview (s : WizardState) (hs : Reachable s)
      (hstep : s.activeStep = "review") : Reachable (onBackFromReview s)
  | editMetadataForm (s : WizardState) (f : AgentCreate) (hs : Reachable s)
      (hstep : s.activeStep = "metadata") : Reachable { s with metadataForm := f }
  | editPolicyForm (s : WizardState) (f : PolicyCreate) (hs : Reachable s)
      (hstep : s.activeStep = "policies") : Reachable { s with policyForm := f }
  | toggleSelect (s : WizardState) (t : Nat) (hs : Reachable s)
      (hstep : s.activeStep = "tools") :
      Reachable { s with selectedToolIds := selectTool s.selectedToolIds t }
  | toggleDeselect (s : WizardState) (t : Nat) (hs : Reachable s)
      (hstep : s.activeStep = "tools") :
      Reachable { s with selectedToolIds := deselectTool s.selectedToolIds t }
/-- Concrete agent record used in witnesses. -/
def agent0 : Agent :=
  { id := 1, name := "Helper", description := "A helpful agent",
    purpose := "Answer questions", model := "gpt-4.1-mini",
    created_at := "2026-01-01", updated_at := "2026-01-01" }
/-- Concrete policy record used in witnesses. -/
def policy0 : Policy :=
  { id := 1, agent_id := 1, frequency_limit := none,
    require_approval_for_all_tool_calls := false }
/-- Concrete valid metadata form. -/
def validForm : AgentCreate :=
  { name := "Helper", description := "A helpful agent",
    purpose := "Answer questions", model := "gpt-4.1-mini" }
/-- A backend failure carrying a detail string. -/
def detailError : ApiError := { response_detail := some "boom", message := none }
/-- A backend failure whose detail string is empty. -/
def emptyDetailError : ApiError := { response_detail := some "", message := none }
/-- Reachable state on the tools step: the initial state after a
successful agent creation. -/
def toolsState : WizardState := handleCreateAgent initialState (Except.ok agent0)
/-- Reachable state on the policies step with no tools selected. -/
def policiesState : WizardState := handleSaveTools toolsState (Except.ok [])
/-- Reachable policies-step state whose form requires approval for all
tool calls while no tool is selected. -/
def c4state : WizardState :=
  { policiesState with
      policyForm := { frequency_limit := none, require_approval_for_all_tool_calls := true } }
/-- Reachable policies-step state whose form carries a zero frequency
limit and no approval requirement. -/
def c3state : WizardState :=
  { policiesState with
      policyForm := { frequency_limit := some 0, require_approval_for_all_tool_calls := false } }
/-- Reachable policies-step shadow state: approval required, no tools
selected, and a zero frequency limit. -/
def c3shadow : WizardState :=
  { policiesState with
      policyForm := { frequency_limit := some 0, require_approval_for_all_tool_calls := true } }
/-- Concrete agent definition used by the QA witnesses. -/
def defn0 : AgentDefinition :=
  { agent_id := 1, name := "Helper", description := "A helpful agent",
    purpose := "Answer questions", model := "gpt-4.1-mini", tools := [],
    policy := { allowed_tool_ids := [], frequency_limit := none,
                require_approval_for_all_tool_calls := false } }
/-- Concrete QA state used by the QA witnesses. -/
def qa0 : QAState :=
  { question := "Hi", answer := none, qaError := none, qaLoading := false }

/-- Helper: filtering out an element that does not occur leaves the list
unchanged. -/
theorem filter_bne_of_not_mem (l : List Nat) (i : Nat) (h : i ∉ l) :
    l.filter (fun x => x != i) = l := by
  induction l with
  | nil => rfl
  | cons a t ih =>
      simp only [List.mem_cons, not_or] at h
      have hne : (a != i) = true := bne_iff_ne.mpr (Ne.symm h.1)
      simp [List.filter_cons, hne, ih h.2]
/-- Invariant of the wizard: away from the metadata step an agent has
always been created, because every transition out of metadata stores the
created agent first. -/
theorem reachable_agent_inv (s : WizardState) (hs : Reachable s) :
    s.activeStep = "metadata" ∨ s.agent.isSome = true := by
  induction hs with
  | init => left; rfl
  | createAgent s r hs hstep ih =>
      cases r with
      | ok a => right; rfl
      | error e => left; exact hstep
  | saveTools s r hs hstep ih =>
      rcases ih with h | h
      · rw [hstep] at h; exact absurd h (by decide)
      · obtain ⟨a, hag⟩ := Option.isSome_iff_exists.mp h
        right
        cases r with
        | ok ts => simp [handleSaveTools, handleSaveToolsEvents, hag, runEvents, applyEvent]
        | error e => simp [handleSaveTools, handleSaveToolsEvents, hag, runEvents, applyEvent]
  | savePolicy s r hs hstep ih =>
      rcases ih with h | h
      · rw [hstep] at h; exact absurd h (by decide)
      · obtain ⟨a, hag⟩ := Option.isSome_iff_exists.mp h
        right
        cases hg1 : (s.policyForm.require_approval_for_all_tool_calls && s.selectedToolIds.length == 0) with
        | true => simp [handleSavePolicy, handleSavePolicyEvents, hag, hg1, runEvents, applyEvent]
        | false =>
          cases hg2 : freqGuardFires s.policyForm.frequency_limit with
          | true => simp [handleSavePolicy, handleSavePolicyEvents, hag, hg1, hg2, runEvents, applyEvent]
          | false =>
            cases r with
            | ok p => simp [handleSavePolicy, handleSavePolicyEvents, hag, hg1, hg2, runEvents, applyEvent]
            | error e => simp [handleSavePolicy, handleSavePolicyEvents, hag, hg1, hg2, runEvents, applyEvent]
  | loadTools s r hs ih =>
      cases r with
      | ok ts => exact ih
      | error e => exact ih
  | loadSelectedTools s r hs ih =>
      cases r with
      | ok ts => exact ih
      | error e => exact ih
  | loadDefinition s r hs ih =>
      cases r with
      | ok d => exact ih
      | error e => exact ih
  | backFromTools s hs hstep ih => left; rfl
  | backFromPolicies s hs hstep ih =>
      rcases ih with h | h
      · rw [hstep] at h; exact absurd h (by decide)
      · right; exact h
  | backFromReview s hs hstep ih =>
      rcases ih with h | h
      · rw [hstep] at h; exact absurd h (by decide)
      · right; exact h
  | editMetadataForm s f hs hstep ih => left; exact hstep
  | editPolicyForm s f hs hstep ih =>
      rcases ih with h | h
      · rw [hstep] at h; exact absurd h (by decide)
      · right; exact h
  | toggleSelect s t hs hstep ih =>
      rcases ih with h | h
      · rw [hstep] at h; exact absurd h (by decide)
      · right; exact h
  | toggleDeselect s t hs hstep ih =>
      rcases ih with h | h
      · rw [hstep] at h; exact absurd h (by decide)
      · right; exact h
/-- Claim C2 counterexample: with a request in flight (loading true) the
Next button of the metadata step is disabled although the validity
predicate holds, so the button is not disabled exactly when the predicate
fails. -/
theorem c2_counterexample :
    isMetadataValid validForm = true ∧
    metadataNextDisabled (isMetadataValid validForm) true = true := by
  exact ⟨by decide, by decide⟩
/-- Claim C2 (amended): the Next button of the metadata step is disabled
exactly when the validity predicate fails or the loading flag is set, and
the predicate holds iff the trimmed name is non-empty, the trimmed
description has length at least 10, the trimmed purpose has length at
least 5, and the trimmed model is non-empty. -/
theorem c2_metadata_next_button (f : AgentCreate) (loading : Bool) :
    (metadataNextDisabled (isMetadataValid f) loading = true ↔
      (isMetadataValid f = false ∨ loading = true)) ∧
    (isMetadataValid f = true ↔
      (0 < (jsTrim f.name).length ∧ 10 ≤ (jsTrim f.description).length ∧
       5 ≤ (jsTrim f.purpose).length ∧ 0 < (jsTrim f.model).length)) := by
  constructor
  · simp [metadataNextDisabled]
  · simp [isMetadataValid, and_assoc]
/-- Claim C6: selecting a tool appends its id, deselecting filters it out;
deselect after select restores a list that did not contain the id,
deselect of an absent id is the identity, deselect is idempotent, and a
tool renders checked iff its id is in the list. -/
theorem c6_tool_toggle (l : List Nat) (i : Nat) :
    (i ∉ l → deselectTool (selectTool l i) i = l) ∧
    (i ∉ l → deselectTool l i = l) ∧
    deselectTool (deselectTool l i) i = deselectTool l i ∧
    (isToolChecked l i = true ↔ i ∈ l) := by
  refine ⟨?_, ?_, ?_, ?_⟩
  · intro h
    show (l ++ [i]).filter (fun x => x != i) = l
    rw [List.filter_append, filter_bne_of_not_mem l i h]
    simp
  · intro h
    exact filter_bne_of_not_mem l i h
  · simp [deselectTool, List.filter_filter]
  · simp [isToolChecked, List.contains]
/-- Claim C6 witness: deselecting id 3 after selecting it on the list
consisting of 1 and 2 restores that list. -/
theorem c6_witness : deselectTool (selectTool [1, 2] 3) 3 = [1, 2] :=
  (c6_tool_toggle [1, 2] 3).1 (by decide)
/-- Claim C8: each Back button changes only activeStep, setting it to the
immediately preceding key of the steps array, performs no REST request,
and leaves every other field of the wizard state unchanged. -/
theorem c8_back_button_frame (s : WizardState) :
    onBackFromTools s = { s with activeStep := "metadata" } ∧
    prevStepKey "tools" = some "metadata" ∧
    requestCount toolsBackEvents = 0 ∧
    onBackFromPolicies s = { s with activeStep := "tools" } ∧
    prevStepKey "policies" = some "tools" ∧
    requestCount policiesBackEvents = 0 ∧
    onBackFromReview s = { s with activeStep := "policies" } ∧
    prevStepKey "review" = some "policies" ∧
    requestCount reviewBackEvents = 0 := by
  refine ⟨rfl, by decide, by decide, rfl, by decide, by decide, rfl, by decide, by decide⟩
/-- Claim C9: with no agent created, submitting the tools step or the
policies step performs no REST request and only sets the missing-agent
error message, leaving every other field including activeStep unchanged. -/
theorem c9_missing_agent_guard (s : WizardState)
    (rt : Except ApiError (List Tool)) (rp : Except ApiError Policy)
    (h : s.agent = none) :
    handleSaveTools s rt = { s with error := agentNotCreatedMsg } ∧
    requestCount (handleSaveToolsEvents s rt) = 0 ∧
    handleSavePolicy s rp = { s with error := agentNotCreatedMsg } ∧
    requestCount (handleSavePolicyEvents s rp) = 0 := by
  obtain ⟨step, ag, defn, avail, sel, pol, err, ld, mf, pf⟩ := s
  simp only at h
  subst h
  exact ⟨rfl, rfl, rfl, rfl⟩
/-- Claim C9 witness: in the initial state, where no agent exists,
submitting the tools step only sets the missing-agent error. -/
theorem c9_witness :
    handleSaveTools initialState (Except.ok []) =
      { initialState with error := agentNotCreatedMsg } :=
  (c9_missing_agent_guard initialState (Except.ok []) (Except.ok policy0) rfl).1
/-- Helper: the tools-step fixture state is reachable. -/
theorem reachable_toolsState : Reachable toolsState :=
  Reachable.createAgent initialState (Except.ok agent0) Reachable.init rfl
/-- Helper: the policies-step fixture state is reachable. -/
theorem reachable_policiesState : Reachable policiesState :=
  Reachable.saveTools toolsState (Except.ok []) reachable_toolsState rfl
/-- Helper: the approval-without-tools fixture state is reachable. -/
theorem reachable_c4state : Reachable c4state :=
  Reachable.editPolicyForm policiesState
    { frequency_limit := none, require_approval_for_all_tool_calls := true }
    reachable_policiesState rfl
/-- Helper: the zero-frequency fixture state is reachable. -/
theorem reachable_c3state : Reachable c3state :=
  Reachable.editPolicyForm policiesState
    { frequency_limit := some 0, require_approval_for_all_tool_calls := false }
    reachable_policiesState rfl
/-- Helper: the shadowing fixture state is reachable. -/
theorem reachable_c3shadow : Reachable c3shadow :=
  Reachable.editPolicyForm policiesState
    { frequency_limit := some 0, require_approval_for_all_tool_calls := true }
    reachable_policiesState rfl
/-- Claim C4: on a reachable policies step whose form requires approval
for all tool calls while no tool is selected, submitting sets exactly the
unusable-agent warning, which renders, performs no REST request, and stays
on the policies step. -/
theorem c4_policy_unusable_warning (s : WizardState) (r : Except ApiError Policy)
    (hs : Reachable s) (hstep : s.activeStep = "policies")
    (happroval : s.policyForm.require_approval_for_all_tool_calls = true)
    (hempty : s.selectedToolIds = []) :
    handleSavePolicy s r = { s with error := unusableAgentMsg } ∧
    errorBannerShown (handleSavePolicy s r).error = true ∧
    requestCount (handleSavePolicyEvents s r) = 0 ∧
    (handleSavePolicy s r).activeStep = "policies" := by
  rcases reachable_agent_inv s hs with h | h
  · rw [hstep] at h; exact absurd h (by decide)
  obtain ⟨a, hag⟩ := Option.isSome_iff_exists.mp h
  have hg : (s.policyForm.require_approval_for_all_tool_calls &&
      s.selectedToolIds.length == 0) = true := by
    rw [happroval, hempty]; rfl
  have hmain : handleSavePolicy s r = { s with error := unusableAgentMsg } := by
    simp [handleSavePolicy, handleSavePolicyEvents, hag, hg, runEvents, applyEvent]
  refine ⟨hmain, ?_, ?_, ?_⟩
  · rw [hmain]
    show errorBannerShown unusableAgentMsg = true
    decide
  · simp [handleSavePolicyEvents, hag, hg, requestCount, isRequestEvent]
  · rw [hmain]; exact hstep
/-- Claim C4 witness: submitting the reachable fixture state with approval
required and no tools selected yields exactly the warning state. -/
theorem c4_witness :
    handleSavePolicy c4state (Except.ok policy0) =
      { c4state with error := unusableAgentMsg } :=
  (c4_policy_unusable_warning c4state (Except.ok policy0) reachable_c4state rfl rfl rfl).1
/-- Claim C3 counterexample: a reachable policy form with frequency limit
zero, but with approval required and no tools selected, produces the
unusable-agent warning rather than the frequency error, because the
warning guard runs first. -/
theorem c3_counterexample :
    Reachable c3shadow ∧
    c3shadow.policyForm.frequency_limit = some 0 ∧
    (handleSavePolicy c3shadow (Except.ok policy0)).error = unusableAgentMsg ∧
    (handleSavePolicy c3shadow (Except.ok policy0)).error ≠ freqLimitMsg := by
  refine ⟨reachable_c3shadow, rfl, rfl, by decide⟩
/-- Claim C3 (amended): on a reachable policies step, when the
approval-with-no-tools warning checked first does not fire, a non-null
frequency limit at most zero makes submit set exactly the frequency error
with no REST request and no other state change; the frequency guard never
fires for a null or positive limit. -/
theorem c3_frequency_guard (s : WizardState) (r : Except ApiError Policy) (n : Int)
    (hs : Reachable s) (hstep : s.activeStep = "policies")
    (hwarn : (s.policyForm.require_approval_for_all_tool_calls &&
      s.selectedToolIds.length == 0) = false)
    (hfreq : s.policyForm.frequency_limit = some n) (hn : n ≤ 0) :
    handleSavePolicy s r = { s with error := freqLimitMsg } ∧
    requestCount (handleSavePolicyEvents s r) = 0 ∧
    freqGuardFires none = false ∧
    (∀ m : Int, 0 < m → freqGuardFires (some m) = false) := by
  rcases reachable_agent_inv s hs with h | h
  · rw [hstep] at h; exact absurd h (by decide)
  obtain ⟨a, hag⟩ := Option.isSome_iff_exists.mp h
  have hfg : freqGuardFires s.policyForm.frequency_limit = true := by
    rw [hfreq]; exact decide_eq_true hn
  refine ⟨?_, ?_, rfl, ?_⟩
  · simp [handleSavePolicy, handleSavePolicyEvents, hag, hwarn, hfg, runEvents, applyEvent]
  · simp [handleSavePolicyEvents, hag, hwarn, hfg, requestCount, isRequestEvent]
  · intro m hm
    simp [freqGuardFires]
    omega
/-- Claim C3 witness: the reachable fixture state with frequency limit
zero and approval not required yields exactly the frequency-error state. -/
theorem c3_witness :
    handleSavePolicy c3state (Except.ok policy0) =
      { c3state with error := freqLimitMsg } :=
  (c3_frequency_guard c3state (Except.ok policy0) 0 reachable_c3state rfl rfl rfl
    (by decide)).1
/-- Claim C1 counterexample: a create-agent call failing with an empty
backend detail string leaves the step unchanged but sets the error state
to the empty string, so no error banner is displayed. -/
theorem c1_counterexample :
    (handleCreateAgent initialState (Except.error emptyDetailError)).activeStep =
      initialState.activeStep ∧
    (handleCreateAgent initialState (Except.error emptyDetailError)).error = "" ∧
    errorBannerShown
      (handleCreateAgent initialState (Except.error emptyDetailError)).error = false :=
  ⟨rfl, rfl, rfl⟩
/-- Claim C1 (amended): each submit handler performs exactly one REST
request when its guards pass; on success it moves activeStep to the next
key of the fixed step order, and on failure it leaves activeStep unchanged
and sets the error state to the backend detail string or a generic
fallback, which is rendered as a banner exactly when non-empty. -/
theorem c1_step_transitions (s : WizardState) (a : Agent) (ts : List Tool)
    (p : Policy) (e : ApiError) :
    ((handleCreateAgent s (Except.ok a)).activeStep = "tools" ∧
      nextStepKey "metadata" = some "tools" ∧
      requestCount (handleCreateAgentEvents (Except.ok a)) = 1) ∧
    ((handleCreateAgent s (Except.error e)).activeStep = s.activeStep ∧
      (handleCreateAgent s (Except.error e)).error =
        e.response_detail.getD "Unable to create agent. Check inputs." ∧
      requestCount (handleCreateAgentEvents (Except.error e)) = 1) ∧
    (∀ a0 : Agent, s.agent = some a0 →
      ((handleSaveTools s (Except.ok ts)).activeStep = "policies" ∧
       nextStepKey "tools" = some "policies" ∧
       requestCount (handleSaveToolsEvents s (Except.ok ts)) = 1)) ∧
    (∀ a0 : Agent, s.agent = some a0 →
      ((handleSaveTools s (Except.error e)).activeStep = s.activeStep ∧
       (handleSaveTools s (Except.error e)).error =
         e.response_detail.getD "Failed to save tools." ∧
       requestCount (handleSaveToolsEvents s (Except.error e)) = 1)) ∧
    (∀ a0 : Agent, s.agent = some a0 →
      (s.policyForm.require_approval_for_all_tool_calls &&
        s.selectedToolIds.length == 0) = false →
      freqGuardFires s.policyForm.frequency_limit = false →
      ((handleSavePolicy s (Except.ok p)).activeStep = "review" ∧
       nextStepKey "policies" = some "review" ∧
       requestCount (handleSavePolicyEvents s (Except.ok p)) = 1)) ∧
    (∀ a0 : Agent, s.agent = some a0 →
      (s.policyForm.require_approval_for_all_tool_calls &&
        s.selectedToolIds.length == 0) = false →
      freqGuardFires s.policyForm.frequency_limit = false →
      ((handleSavePolicy s (Except.error e)).activeStep = s.activeStep ∧
       (handleSavePolicy s (Except.error e)).error =
         e.response_detail.getD "Failed to save policy." ∧
       requestCount (handleSavePolicyEvents s (Except.error e)) = 1)) ∧
    (∀ m : String, errorBannerShown m = true ↔ m ≠ "") := by
  obtain ⟨step, ag, defn, avail, sel, pol, err, ld, mf, pf⟩ := s
  refine ⟨⟨rfl, by decide, rfl⟩, ⟨rfl, rfl, rfl⟩, ?_, ?_, ?_, ?_, ?_⟩
  · intro a0 hag
    simp only at hag
    subst hag
    exact ⟨rfl, by decide, rfl⟩
  · intro a0 hag
    simp only at hag
    subst hag
    exact ⟨rfl, rfl, rfl⟩
  · intro a0 hag hw hf
    simp only at hag hw hf
    subst hag
    refine ⟨?_, by decide, ?_⟩
    · simp [handleSavePolicy, handleSavePolicyEvents, hw, hf, runEvents, applyEvent]
    · simp [handleSavePolicyEvents, hw, hf, requestCount, isRequestEvent]
  · intro a0 hag hw hf
    simp only at hag hw hf
    subst hag
    refine ⟨?_, ?_, ?_⟩
    · simp [handleSavePolicy, handleSavePolicyEvents, hw, hf, runEvents, applyEvent]
    · simp [handleSavePolicy, handleSavePolicyEvents, hw, hf, runEvents, applyEvent]
    · simp [handleSavePolicyEvents, hw, hf, requestCount, isRequestEvent]
  · intro m
    simp [errorBannerShown]
/-- Claim C1 witness: from the reachable tools-step state, a successful
save-tools call moves the wizard to the policies step. -/
theorem c1_witness :
    (handleSaveTools toolsState (Except.ok [])).activeStep = "policies" :=
  ((c1_step_transitions toolsState agent0 [] policy0 detailError).2.2.1 agent0 rfl).1
/-- Claim C5 counterexample: a tools-list fetch failing with a backend
detail string still shows the fixed generic message, not the backend
string, so the banner is not the raw backend message whenever one is
provided. -/
theorem c5_counterexample :
    detailError.response_detail = some "boom" ∧
    (fetchTools initialState (Except.error detailError)).error =
      "Failed to load tools. Please try again." ∧
    (fetchTools initialState (Except.error detailError)).error ≠ "boom" := by
  refine ⟨rfl, rfl, by decide⟩
/-- Claim C5 (amended): on failure the three submit handlers show the
backend detail string verbatim when present and a fixed fallback when
absent, and the QA harness shows the first truthy of backend detail,
client message and a fixed fallback; the three fetch operations always
show their own fixed generic message regardless of any backend detail. -/
theorem c5_error_messages (s : WizardState) (e : ApiError) (a : Agent)
    (hagent : s.agent = some a)
    (hwarn : (s.policyForm.require_approval_for_all_tool_calls &&
      s.selectedToolIds.length == 0) = false)
    (hfreq : freqGuardFires s.policyForm.frequency_limit = false) :
    (handleCreateAgent s (Except.error e)).error =
      e.response_detail.getD "Unable to create agent. Check inputs." ∧
    (handleSaveTools s (Except.error e)).error =
      e.response_detail.getD "Failed to save tools." ∧
    (handleSavePolicy s (Except.error e)).error =
      e.response_detail.getD "Failed to save policy." ∧
    (fetchTools s (Except.error e)).error =
      "Failed to load tools. Please try again." ∧
    (fetchSelectedTools s (Except.error e)).error =
      "Failed to load selected tools." ∧
    (fetchDefinition s (Except.error e)).error =
      "Unable to fetch agent definition. Ensure policy is configured." ∧
    (∀ (aid : Option Nat) (qa : QAState), truthyNumber aid = true →
      (onAsk aid qa (Except.error e)).1.qaError = some (qaFailureMsg e)) := by
  obtain ⟨step, ag, defn, avail, sel, pol, err, ld, mf, pf⟩ := s
  simp only at hagent hwarn hfreq
  subst hagent
  refine ⟨rfl, rfl, ?_, rfl, rfl, rfl, ?_⟩
  · simp [handleSavePolicy, handleSavePolicyEvents, hwarn, hfreq, runEvents, applyEvent]
  · intro aid qa h
    simp [onAsk, h]
/-- Claim C5 witness: from the reachable tools-step state a failing
save-tools call shows exactly the backend detail string. -/
theorem c5_witness :
    (handleSaveTools toolsState (Except.error detailError)).error =
      detailError.response_detail.getD "Failed to save tools." :=
  (c5_error_messages toolsState detailError agent0 rfl rfl rfl).2.1
/-- Claim C7 counterexample: fetchTools issues its REST request without
ever setting the loading flag, so that request is not guarded by the
loading flag. -/
theorem c7_counterexample :
    requestCount (fetchToolsEvents (Except.ok [])) = 1 ∧
    requestsGuarded false (fetchToolsEvents (Except.ok [])) = false :=
  ⟨rfl, rfl⟩
/-- Claim C7 (amended): the three submit handlers and the definition fetch
set the loading flag before their single request and clear it once it
settles, and every submit, back and ask control is disabled while the
relevant loading flag is set; but fetchTools and fetchSelectedTools issue
their requests without touching the loading flag, so a fetch started by a
step change can overlap a submission. -/
theorem c7_loading_guard (s : WizardState) (ra : Except ApiError Agent)
    (rt rs : Except ApiError (List Tool)) (rp : Except ApiError Policy)
    (rd : Except ApiError AgentDefinition) (v : Bool) :
    requestsGuarded false (handleCreateAgentEvents ra) = true ∧
    requestsGuarded false (handleSaveToolsEvents s rt) = true ∧
    requestsGuarded false (handleSavePolicyEvents s rp) = true ∧
    requestsGuarded false (fetchDefinitionEvents rd) = true ∧
    (handleCreateAgent s ra).loading = false ∧
    (fetchDefinition s rd).loading = false ∧
    (requestCount (handleSaveToolsEvents s rt) = 0 ∨
      (handleSaveTools s rt).loading = false) ∧
    (requestCount (handleSavePolicyEvents s rp) = 0 ∨
      (handleSavePolicy s rp).loading = false) ∧
    metadataNextDisabled v true = true ∧
    toolsSubmitDisabled true = true ∧
    toolsBackDisabled true = true ∧
    policySubmitDisabled true = true ∧
    policyBackDisabled true = true ∧
    reviewBackDisabled true = true ∧
    (∀ (aid : Option Nat) (q : String), canAsk aid q true = false) ∧
    requestsGuarded false (fetchToolsEvents rt) = false ∧
    requestsGuarded false (fetchSelectedToolsEvents rs) = false := by
  obtain ⟨step, ag, defn, avail, sel, pol, err, ld, mf, pf⟩ := s
  refine ⟨?_, ?_, ?_, ?_, ?_, ?_, ?_, ?_, ?_, rfl, rfl, rfl, rfl, rfl, ?_, ?_, ?_⟩
  · cases ra <;> rfl
  · cases ag <;> cases rt <;> rfl
  · cases ag with
    | none => rfl
    | some a0 =>
        by_cases h1 : (pf.require_approval_for_all_tool_calls && sel.length == 0) = true
        · simp [handleSavePolicyEvents, h1, requestsGuarded]
        · rw [Bool.not_eq_true] at h1
          by_cases h2 : freqGuardFires pf.frequency_limit = true
          · simp [handleSavePolicyEvents, h1, h2, requestsGuarded]
          · rw [Bool.not_eq_true] at h2
            cases rp <;> simp [handleSavePolicyEvents, h1, h2, requestsGuarded]
  · cases rd <;> rfl
  · cases ra <;> rfl
  · cases rd <;> rfl
  · cases ag with
    | none => left; rfl
    | some a0 => right; cases rt <;> rfl
  · cases ag with
    | none => left; rfl
    | some a0 =>
        by_cases h1 : (pf.require_approval_for_all_tool_calls && sel.length == 0) = true
        · left
          simp [handleSavePolicyEvents, h1, requestCount, isRequestEvent]
        · rw [Bool.not_eq_true] at h1
          by_cases h2 : freqGuardFires pf.frequency_limit = true
          · left
            simp [handleSavePolicyEvents, h1, h2, requestCount, isRequestEvent]
          · rw [Bool.not_eq_true] at h2
            right
            cases rp <;>
              simp [handleSavePolicy, handleSavePolicyEvents, h1, h2, runEvents, applyEvent]
  · simp [metadataNextDisabled]
  · intro aid q
    simp [canAsk]
  · cases rt <;> rfl
  · cases rs <;> rfl
/-- Claim C10: the Ask button is enabled only when a definition is loaded,
the trimmed question is non-blank and no QA request is in flight, it is
disabled exactly when canAsk is false, and invoking onAsk with a null
agent id sends nothing and changes no QA state. -/
theorem c10_qa_guard (d : Option AgentDefinition) (q : String) (b : Bool)
    (qa : QAState) (r : Except ApiError AgentQAResponse) :
    (canAsk (agentIdOf d) q b = true →
      (d ≠ none ∧ 0 < (jsTrim q).length ∧ b = false)) ∧
    (askButtonDisabled (canAsk (agentIdOf d) q b) = true ↔
      canAsk (agentIdOf d) q b = false) ∧
    onAsk none qa r = (qa, false) := by
  refine ⟨?_, ?_, rfl⟩
  · intro h
    cases d with
    | none => simp [canAsk, agentIdOf, truthyNumber] at h
    | some dd =>
        simp only [canAsk, Bool.and_eq_true, decide_eq_true_eq, Bool.not_eq_true'] at h
        exact ⟨by simp, h.1.2, h.2⟩
  · simp [askButtonDisabled]
/-- Claim C10 witness: with a loaded definition, a non-blank question and
no request in flight, the enabling conditions all hold. -/
theorem c10_witness :
    (some defn0 ≠ (none : Option AgentDefinition)) ∧
    0 < (jsTrim "Hi").length ∧ false = false :=
  (c10_qa_guard (some defn0) "Hi" false qa0 (Except.ok ⟨"Hi", some "ok", none⟩)).1 rfl

end AgentBuilder
